import Mathlib

/-!
Shallow embedding of the hotkey activation and synchronization engine of
`src-tauri/src/services/system/hotkey.rs`, together with theorems settling
the specification claims about it.

Modelling conventions:
* machine strings are Lean `String`s; the byte-level slicing done by the
  source is faithfully reproduced on `List Char` (all relevant text is ASCII);
* the external OS shortcut grammar and the OS registration call are
  abstracted as oracles (`g : String → Bool` for grammar acceptance of the
  normalized string, `os : String → Option String` returning `some errMsg`
  on failure), passed as parameters;
* the module's mutable globals (`APP_HANDLE`, `REGISTERED_SHORTCUTS`,
  `SHORTCUT_STATUS`, `HOTKEYS_ENABLED`, `FOREGROUND_GLOBALLY_DISABLED`) are
  gathered in the record `HotkeyState`; the `HashMap` status table is
  modelled as an association list with overwriting insert;
* the activation synchronizer (`HOTKEY_SYNC_STATE` plus the spawned
  convergence worker) is modelled as a labelled transition system whose
  atomic steps are exactly the critical sections of the source.
-/

namespace Hotkey

/-- Fuel-indexed scan of Rust `str::replace`: replaces every non-overlapping
occurrence of `p` by `r`, left to right, never rescanning a replacement. -/
def replaceFuel (p r : List Char) : Nat → List Char → List Char
  | 0, s => s
  | _ + 1, [] => []
  | fuel + 1, c :: rest =>
    if p.isPrefixOf (c :: rest) then
      r ++ replaceFuel p r fuel ((c :: rest).drop p.length)
    else
      c :: replaceFuel p r fuel rest

/-- Rust `str::replace p r` on `s`. The patterns used by the source
(`"Win+"`, `"Ctrl+"`) are never empty, so the guard is never taken. -/
def replaceAll (p r s : String) : String :=
  if p.data.isEmpty then s
  else ⟨replaceFuel p.data r.data s.data.length s.data⟩

/-- Rust `str::ends_with`. -/
def strEndsWith (s suffixStr : String) : Bool :=
  suffixStr.data.isSuffixOf s.data

/-- Rust `str::starts_with`. -/
def strStartsWith (s prefixStr : String) : Bool :=
  prefixStr.data.isPrefixOf s.data

/-- Rust `str::contains` with a string pattern (substring test). -/
def subList (needle : List Char) : List Char → Bool
  | [] => needle.isEmpty
  | c :: rest => needle.isPrefixOf (c :: rest) || subList needle rest

/-- Rust `haystack.contains(pat)`. -/
def containsSub (haystack pat : String) : Bool :=
  subList pat.data haystack.data

/-- The `symbol_mappings` table of `parse_shortcut` (source lines 150–174),
in source order. -/
def symbolMappings : List (String × String) :=
  [ ("+`", "+Backquote"), ("+-", "+Minus"), ("+=", "+Equal"),
    ("+[", "+BracketLeft"), ("+]", "+BracketRight"), ("+\\", "+Backslash"),
    ("+;", "+Semicolon"), ("+\x27", "+Quote"), ("+,", "+Comma"),
    ("+.", "+Period"), ("+/", "+Slash"),
    ("+~", "+Backquote"), ("+_", "+Minus"), ("+\x7b", "+BracketLeft"),
    ("+\x7d", "+BracketRight"), ("+|", "+Backslash"), ("+:", "+Semicolon"),
    ("+\x22", "+Quote"), ("+<", "+Comma"), ("+>", "+Period"), ("+?", "+Slash") ]

/-- The single symbol-suffix substitution of `parse_shortcut`: the first
table rule whose left side is a suffix of `s` rewrites that suffix, then the
loop breaks (at most one rule fires; left sides are mutually exclusive). -/
def applySymbolSuffix (s : List Char) : List Char :=
  match symbolMappings.find? (fun m => m.1.data.isSuffixOf s) with
  | some m => s.take (s.length - m.1.data.length) ++ m.2.data
  | none => s

/-- The pure normalization performed by `parse_shortcut` before handing the
string to the OS grammar: vendor modifier renaming (`Win+` → `Super+`,
`Ctrl+` → `Control+`) followed by the single symbol-suffix substitution. -/
def normalizeShortcut (s : String) : String :=
  ⟨applySymbolSuffix (replaceAll "Ctrl+" "Control+" (replaceAll "Win+" "Super+" s)).data⟩

/-- `parse_shortcut` (source lines 143–185), with the external OS shortcut
grammar abstracted as the acceptance oracle `g` applied to the normalized
string; `some canonical` on success, `none` on parse failure. -/
def parse_shortcut (g : String → Bool) (s : String) : Option String :=
  let n := normalizeShortcut s
  if g n then some n else none

/-- `ShortcutStatus` (source lines 59–65). -/
structure ShortcutStatus where
  id : String
  shortcut : String
  success : Bool
  error : Option String
deriving DecidableEq

/-- The mutable globals of the module gathered in one record: `app` is
whether `APP_HANDLE` holds `Some`, `registered` is `REGISTERED_SHORTCUTS`
(a `Vec` of `(id, descriptor)` pairs, in insertion order), `status` is the
`SHORTCUT_STATUS` hash map as an association list with overwriting insert,
and the two `AtomicBool`s keep their names. -/
structure HotkeyState where
  app : Bool
  registered : List (String × String)
  status : List (String × ShortcutStatus)
  hotkeysEnabled : Bool
  foregroundDisabled : Bool
deriving DecidableEq

/-- `HashMap::insert` on the association-list model: one entry per key. -/
def statusInsert (id : String) (v : ShortcutStatus)
    (m : List (String × ShortcutStatus)) : List (String × ShortcutStatus) :=
  (id, v) :: m.filter (fun p => !(p.1 == id))

/-- `HashMap::remove` on the association-list model. -/
def statusRemove (id : String) (m : List (String × ShortcutStatus)) :
    List (String × ShortcutStatus) :=
  m.filter (fun p => !(p.1 == id))

/-- `HashMap::get` on the association-list model. -/
def lookupStatus (id : String) (m : List (String × ShortcutStatus)) :
    Option ShortcutStatus :=
  (m.find? (fun p => p.1 == id)).map Prod.snd

/-- `update_shortcut_status` (source lines 674–685). -/
def update_shortcut_status (st : HotkeyState) (id shortcut : String)
    (success : Bool) (error : Option String) : HotkeyState :=
  { st with status := statusInsert id ⟨id, shortcut, success, error⟩ st.status }

/-- `clear_shortcut_status` (source lines 700–703). -/
def clear_shortcut_status (st : HotkeyState) (id : String) : HotkeyState :=
  { st with status := statusRemove id st.status }

/-- `unregister_shortcut` (source lines 227–243): silently returns when the
manager is not initialized; otherwise removes the first registration entry
for `id` (Rust `position` followed by `remove(pos)` is `List.eraseP`) and
clears the status for `id`. The OS-level unregistration call inside the
found-branch is external and leaves this state unchanged. -/
def unregister_shortcut (st : HotkeyState) (id : String) : HotkeyState :=
  if st.app then
    { st with registered := st.registered.eraseP (fun p => p.1 == id),
              status := statusRemove id st.status }
  else st

/-- `register_shortcut` (source lines 187–225). The handler argument plays
no role in the table state. `g` is the OS grammar oracle, `os` the OS
registration oracle (`none` = success, `some e` = failure message `e`). -/
def register_shortcut (g : String → Bool) (os : String → Option String)
    (id shortcut_str : String) (st : HotkeyState) :
    HotkeyState × Except String Unit :=
  if st.app then
    let st1 := unregister_shortcut st id
    match parse_shortcut g shortcut_str with
    | none =>
      (update_shortcut_status st1 id shortcut_str false
         (some "REGISTRATION_FAILED"),
       .error "REGISTRATION_FAILED")
    | some canon =>
      match os canon with
      | none =>
        (update_shortcut_status
           { st1 with registered := st1.registered ++ [(id, shortcut_str)] }
           id shortcut_str true none,
         .ok ())
      | some e =>
        let msg := if containsSub e "already registered" then "CONFLICT"
                   else "REGISTRATION_FAILED"
        (update_shortcut_status st1 id shortcut_str false (some msg),
         .error ("注册快捷键失败: " ++ e))
  else (st, .error "热键管理器未初始化")

/-- `unregister_all` (source lines 641–646): snapshots the registration
table, then unregisters each snapshotted id in order. -/
def unregister_all (st : HotkeyState) : HotkeyState :=
  st.registered.foldl (fun acc p => unregister_shortcut acc p.1) st

/-- `register_toggle_hotkey` (source lines 245–252). -/
def register_toggle_hotkey (g : String → Bool) (os : String → Option String)
    (shortcut_str : String) (st : HotkeyState) :
    HotkeyState × Except String Unit :=
  register_shortcut g os "toggle" shortcut_str st

/-- `register_quickpaste_hotkey` (source lines 254–316): unlike
`register_shortcut` it records no status at all — parse and OS failures
propagate as errors without a status entry, and success pushes the table
entry without a success status. The propagated parse-error message comes
from the external parser and is abstracted as the fixed prefix. -/
def register_quickpaste_hotkey (g : String → Bool) (os : String → Option String)
    (shortcut_str : String) (st : HotkeyState) :
    HotkeyState × Except String Unit :=
  if st.app then
    let st1 := unregister_shortcut st "quickpaste"
    match parse_shortcut g shortcut_str with
    | none => (st1, .error "解析快捷键失败")
    | some canon =>
      match os canon with
      | some e => (st1, .error ("注册便捷粘贴快捷键失败: " ++ e))
      | none =>
        ({ st1 with registered := st1.registered ++ [("quickpaste", shortcut_str)] },
         .ok ())
  else (st, .error "热键管理器未初始化")

/-- `register_screenshot_hotkey` (feature `screenshot-suite` enabled,
source lines 318–333). -/
def register_screenshot_hotkey (g : String → Bool) (os : String → Option String)
    (shortcut_str : String) (st : HotkeyState) :
    HotkeyState × Except String Unit :=
  register_shortcut g os "screenshot" shortcut_str st

/-- `register_screenshot_quick_save_hotkey` (source lines 340–353). -/
def register_screenshot_quick_save_hotkey (g : String → Bool)
    (os : String → Option String) (shortcut_str : String) (st : HotkeyState) :
    HotkeyState × Except String Unit :=
  register_shortcut g os "screenshot_quick_save" shortcut_str st

/-- `register_screenshot_quick_pin_hotkey` (source lines 360–373). -/
def register_screenshot_quick_pin_hotkey (g : String → Bool)
    (os : String → Option String) (shortcut_str : String) (st : HotkeyState) :
    HotkeyState × Except String Unit :=
  register_shortcut g os "screenshot_quick_pin" shortcut_str st

/-- `register_screenshot_quick_ocr_hotkey` (source lines 380–393). -/
def register_screenshot_quick_ocr_hotkey (g : String → Bool)
    (os : String → Option String) (shortcut_str : String) (st : HotkeyState) :
    HotkeyState × Except String Unit :=
  register_shortcut g os "screenshot_quick_ocr" shortcut_str st

/-- `register_toggle_clipboard_monitor_hotkey` (source lines 400–409). -/
def register_toggle_clipboard_monitor_hotkey (g : String → Bool)
    (os : String → Option String) (shortcut_str : String) (st : HotkeyState) :
    HotkeyState × Except String Unit :=
  register_shortcut g os "toggle_clipboard_monitor" shortcut_str st

/-- `register_toggle_paste_with_format_hotkey` (source lines 411–420). -/
def register_toggle_paste_with_format_hotkey (g : String → Bool)
    (os : String → Option String) (shortcut_str : String) (st : HotkeyState) :
    HotkeyState × Except String Unit :=
  register_shortcut g os "toggle_paste_with_format" shortcut_str st

/-- `register_paste_plain_text_hotkey` (source lines 422–464): parse and OS
failures propagate without a status entry; success pushes the table entry
and records a success status. -/
def register_paste_plain_text_hotkey (g : String → Bool)
    (os : String → Option String) (shortcut_str : String) (st : HotkeyState) :
    HotkeyState × Except String Unit :=
  if st.app then
    let st1 := unregister_shortcut st "paste_plain_text"
    match parse_shortcut g shortcut_str with
    | none => (st1, .error "解析快捷键失败")
    | some canon =>
      match os canon with
      | some e => (st1, .error ("注册纯文本粘贴快捷键失败: " ++ e))
      | none =>
        (update_shortcut_status
           { st1 with registered :=
               st1.registered ++ [("paste_plain_text", shortcut_str)] }
           "paste_plain_text" shortcut_str true none,
         .ok ())
  else (st, .error "热键管理器未初始化")

/-- Rust `Vec<String>::join(", ")`. -/
def joinComma : List String → String
  | [] => ""
  | [x] => x
  | x :: y :: xs => x ++ ", " ++ joinComma (y :: xs)

/-- Rust `str::trim_end_matches('+')`. -/
def trimEndPlus (s : String) : String :=
  ⟨(s.data.reverse.dropWhile (fun c => c == '+')).reverse⟩

/-- Rust `modifier.strip_suffix("F").unwrap_or("")` (one ASCII char). -/
def stripSuffixF (s : String) : String :=
  if strEndsWith s "F" then ⟨s.data.take (s.data.length - 1)⟩ else ""

/-- The descriptor string built for numbered shortcut `num` (1-based) from
the configured modifier (source lines 508–527). -/
def number_descriptor (modifier : String) (num : Nat) : String :=
  if strEndsWith modifier "F" then
    let pre := trimEndPlus (stripSuffixF modifier)
    if pre == "" then "F" ++ toString num else pre ++ "+F" ++ toString num
  else modifier ++ "+" ++ toString num

/-- The action id of numbered shortcut `num`. -/
def number_id (num : Nat) : String := "number_" ++ toString num

/-- `unregister_number_shortcuts` (source lines 584–601): removes every
registration entry whose id starts with `"number_"`; statuses untouched. -/
def unregister_number_shortcuts (st : HotkeyState) : HotkeyState :=
  { st with registered :=
      st.registered.filter (fun p => !(strStartsWith p.1 "number_")) }

/-- One iteration of the `for num in 1..=9` loop of
`register_number_shortcuts`: the accumulator is the current state paired
with the `failed_shortcuts` vector. A descriptor that fails to parse is
silently skipped (`if let Ok`); an OS failure appends the descriptor to
`failed_shortcuts`; a success pushes the table entry. -/
def numberLoopStep (g : String → Bool) (os : String → Option String)
    (modifier : String) (acc : HotkeyState × List String) (num : Nat) :
    HotkeyState × List String :=
  let d := number_descriptor modifier num
  match parse_shortcut g d with
  | none => acc
  | some canon =>
    match os canon with
    | none =>
      ({ acc.1 with registered := acc.1.registered ++ [(number_id num, d)] },
       acc.2)
    | some _ => (acc.1, acc.2 ++ [d])

/-- `register_number_shortcuts` (source lines 498–582). -/
def register_number_shortcuts (g : String → Bool) (os : String → Option String)
    (modifier : String) (st : HotkeyState) : HotkeyState × Except String Unit :=
  if st.app then
    let st1 := unregister_number_shortcuts st
    let st2 := { st1 with status := statusRemove "number_shortcuts" st1.status }
    let res := [1, 2, 3, 4, 5, 6, 7, 8, 9].foldl
      (numberLoopStep g os modifier) (st2, [])
    let st3 := res.1
    let failed := res.2
    if failed.isEmpty then (st3, .ok ())
    else
      let aggregate : ShortcutStatus :=
        ⟨"number_shortcuts", joinComma failed, false, some "REGISTRATION_FAILED"⟩
      ({ st3 with status := statusInsert "number_shortcuts" aggregate st3.status },
       .ok ())
  else (st, .error "热键管理器未初始化")

/-- The `Settings` fields read by this module (external collaborator). -/
structure Settings where
  hotkeys_enabled : Bool
  toggle_shortcut : String
  quickpaste_enabled : Bool
  quickpaste_shortcut : String
  screenshot_enabled : Bool
  screenshot_shortcut : String
  screenshot_quick_save_shortcut : String
  screenshot_quick_pin_shortcut : String
  screenshot_quick_ocr_shortcut : String
  toggle_clipboard_monitor_shortcut : String
  toggle_paste_with_format_shortcut : String
  paste_plain_text_shortcut : String
  number_shortcuts : Bool
  number_shortcuts_modifier : String
deriving DecidableEq

/-- `reload_from_settings` (source lines 705–781): unregisters everything,
clears the whole status table, then — only when hotkeys are enabled in the
settings and the foreground-exclusion flag is off — re-registers every
configured action, logging and swallowing each per-action error. -/
def reload_from_settings (g : String → Bool) (os : String → Option String)
    (settings : Settings) (st : HotkeyState) : HotkeyState × Except String Unit :=
  let st1 := unregister_all st
  let st2 := { st1 with status := [] }
  if settings.hotkeys_enabled then
    if st2.foregroundDisabled then (st2, .ok ())
    else
      let s3 := if !(settings.toggle_shortcut == "") then
          (register_toggle_hotkey g os settings.toggle_shortcut st2).1 else st2
      let s4 := if settings.quickpaste_enabled
          && !(settings.quickpaste_shortcut == "") then
          (register_quickpaste_hotkey g os settings.quickpaste_shortcut s3).1
        else s3
      let s5 := if settings.screenshot_enabled
          && !(settings.screenshot_shortcut == "") then
          (register_screenshot_hotkey g os settings.screenshot_shortcut s4).1
        else s4
      let s6 := if settings.screenshot_enabled
          && !(settings.screenshot_quick_save_shortcut == "") then
          (register_screenshot_quick_save_hotkey g os
            settings.screenshot_quick_save_shortcut s5).1
        else s5
      let s7 := if settings.screenshot_enabled
          && !(settings.screenshot_quick_pin_shortcut == "") then
          (register_screenshot_quick_pin_hotkey g os
            settings.screenshot_quick_pin_shortcut s6).1
        else s6
      let s8 := if settings.screenshot_enabled
          && !(settings.screenshot_quick_ocr_shortcut == "") then
          (register_screenshot_quick_ocr_hotkey g os
            settings.screenshot_quick_ocr_shortcut s7).1
        else s7
      let s9 := if !(settings.toggle_clipboard_monitor_shortcut == "") then
          (register_toggle_clipboard_monitor_hotkey g os
            settings.toggle_clipboard_monitor_shortcut s8).1
        else s8
      let s10 := if !(settings.toggle_paste_with_format_shortcut == "") then
          (register_toggle_paste_with_format_hotkey g os
            settings.toggle_paste_with_format_shortcut s9).1
        else s9
      let s11 := if !(settings.paste_plain_text_shortcut == "") then
          (register_paste_plain_text_hotkey g os
            settings.paste_plain_text_shortcut s10).1
        else s10
      let s12 := if settings.number_shortcuts
          && !(settings.number_shortcuts_modifier == "") then
          (register_number_shortcuts g os
            settings.number_shortcuts_modifier s11).1
        else s11
      (s12, .ok ())
  else (st2, .ok ())

/-- `try_activate_key` (source lines 38–46) over `ACTIVE_PASTE_KEYS`,
modelled as a `Finset String`: test-and-insert returning the first-press
signal. -/
def try_activate_key (key_id : String) (active : Finset String) :
    Bool × Finset String :=
  if key_id ∈ active then (false, active)
  else (true, insert key_id active)

/-- `is_key_active` (source lines 49–51). -/
def is_key_active (key_id : String) (active : Finset String) : Bool :=
  key_id ∈ active

/-- `deactivate_key` (source lines 54–56). -/
def deactivate_key (key_id : String) (active : Finset String) : Finset String :=
  active.erase key_id

/-- `HotkeyActivation` (source lines 14–18). -/
inductive HotkeyActivation where
  | Active
  | Inactive
deriving DecidableEq

/-- Program counter of one spawned convergence worker (source lines
118–133): `readDesired` is about to take the lock at the top of the loop;
`applying d` has read `desired_now = d`, is running `apply_activation`
outside the lock, and is about to take the lock for the write-back. -/
inductive WorkerPhase where
  | readDesired
  | applying (d : HotkeyActivation)
deriving DecidableEq

/-- `HotkeySyncState` (source lines 20–33) extended with the multiset of
logically running convergence workers (so that "at most one worker" is a
theorem about the model, not an assumption built into it). -/
structure SyncState where
  current : HotkeyActivation
  desired : HotkeyActivation
  syncing : Bool
  workers : List WorkerPhase
deriving DecidableEq

/-- The initial `HOTKEY_SYNC_STATE` (source lines 27–33). -/
def initSyncState : SyncState :=
  { current := .Active, desired := .Active, syncing := false, workers := [] }

/-- The request path of `sync_hotkeys_for_foreground` (source lines
103–118), one atomic critical section with the computed `desired` value
`d`: store `desired`; if a worker is already syncing, return; if already
converged, return; otherwise mark `syncing` and spawn one worker. -/
def applyRequest (d : HotkeyActivation) (s : SyncState) : SyncState :=
  let s1 := { s with desired := d }
  if s1.syncing then s1
  else if s1.current = d then s1
  else { s1 with syncing := true, workers := s1.workers ++ [.readDesired] }

/-- One atomic step of a convergence worker (source lines 118–133): a
`readDesired` worker reads `desired` under the lock; an `applying d` worker
(after the lock-free `apply_activation`) writes `current := d` and, in the
same critical section, either clears `syncing` and exits (when converged)
or loops. -/
inductive WorkerStep : SyncState → SyncState → Prop where
  | read (s : SyncState) (l r : List WorkerPhase)
      (hw : s.workers = l ++ WorkerPhase.readDesired :: r) :
      WorkerStep s { s with workers := l ++ WorkerPhase.applying s.desired :: r }
  | writeDone (s : SyncState) (l r : List WorkerPhase) (d : HotkeyActivation)
      (hw : s.workers = l ++ WorkerPhase.applying d :: r) (hd : d = s.desired) :
      WorkerStep s { s with current := d, syncing := false, workers := l ++ r }
  | writeLoop (s : SyncState) (l r : List WorkerPhase) (d : HotkeyActivation)
      (hw : s.workers = l ++ WorkerPhase.applying d :: r) (hd : d ≠ s.desired) :
      WorkerStep s
        { s with current := d, workers := l ++ WorkerPhase.readDesired :: r }

/-- One atomic step of the synchronizer: a request (with any computed
desired value) or a worker step. -/
inductive SyncStep : SyncState → SyncState → Prop where
  | request (d : HotkeyActivation) (s : SyncState) : SyncStep s (applyRequest d s)
  | worker {s t : SyncState} (h : WorkerStep s t) : SyncStep s t

/-- States reachable from the initial synchronizer state. -/
inductive SyncReachable : SyncState → Prop where
  | init : SyncReachable initSyncState
  | step {s t : SyncState} (hs : SyncReachable s) (h : SyncStep s t) :
      SyncReachable t

/-- The inductive invariant of the synchronizer: quiescence plus
worker-count bookkeeping. -/
def SyncInv (s : SyncState) : Prop :=
  (s.syncing = false → s.current = s.desired ∧ s.workers = []) ∧
  (s.syncing = true → s.workers.length = 1)

/-- The request path applied to each desired value of a burst, in order. -/
def foldRequests (ds : List HotkeyActivation) (s : SyncState) : SyncState :=
  ds.foldl (fun t d => applyRequest d t) s

/-- A freshly initialized empty state (right after `init_hotkey_manager`,
with both tables empty and the default flag values). -/
def emptyInitState : HotkeyState :=
  { app := true, registered := [], status := [],
    hotkeysEnabled := true, foregroundDisabled := false }

/-- The registration-table entry produced by numbered shortcut `n` when its
descriptor parses and the OS accepts it (`none` otherwise). -/
def numberOkEntry (g : String → Bool) (os : String → Option String)
    (modifier : String) (n : Nat) : Option (String × String) :=
  match parse_shortcut g (number_descriptor modifier n) with
  | none => none
  | some canon =>
    match os canon with
    | none => some (number_id n, number_descriptor modifier n)
    | some _ => none

/-- The descriptor collected into `failed_shortcuts` by numbered shortcut
`n`: present exactly when the descriptor parses but the OS rejects it. -/
def numberFailDesc (g : String → Bool) (os : String → Option String)
    (modifier : String) (n : Nat) : Option String :=
  match parse_shortcut g (number_descriptor modifier n) with
  | none => none
  | some canon =>
    match os canon with
    | none => none
    | some _ => some (number_descriptor modifier n)

lemma syncInv_init : SyncInv initSyncState := by
  constructor
  · intro _; exact ⟨rfl, rfl⟩
  · intro h; simp [initSyncState] at h

lemma syncInv_request (d : HotkeyActivation) (s : SyncState) (h : SyncInv s) :
    SyncInv (applyRequest d s) := by
  obtain ⟨hq, hw⟩ := h
  cases hsy : s.syncing with
  | true =>
    have h1 := hw hsy
    simp [SyncInv, applyRequest, hsy, h1]
  | false =>
    obtain ⟨hcd, hws⟩ := hq hsy
    by_cases hc : s.current = d
    · simp [SyncInv, applyRequest, hsy, hc, hws]
    · simp [SyncInv, applyRequest, hsy, hc, hws]

lemma list_single_of_append_cons {α : Type} {l r : List α} {x : α}
    (h : (l ++ x :: r).length = 1) : l = [] ∧ r = [] := by
  simp only [List.length_append, List.length_cons] at h
  constructor
  · exact List.length_eq_zero.mp (by omega)
  · exact List.length_eq_zero.mp (by omega)

lemma syncInv_worker {s t : SyncState} (h : SyncInv s) (hw : WorkerStep s t) :
    SyncInv t := by
  obtain ⟨hq, hlen⟩ := h
  have hsync : s.syncing = true := by
    cases hsy : s.syncing
    · exfalso
      obtain ⟨_, hnil⟩ := hq hsy
      cases hw <;> simp_all
    · rfl
  cases hw with
  | read l r hww =>
    refine ⟨fun hf => by simp [hsync] at hf, fun _ => ?_⟩
    have := hlen hsync
    rw [hww] at this
    simpa using this
  | writeDone l r d hww hd =>
    have := hlen hsync
    rw [hww] at this
    obtain ⟨hl, hr⟩ := list_single_of_append_cons this
    subst hl; subst hr
    refine ⟨fun _ => ⟨hd, rfl⟩, fun hcon => by simp at hcon⟩
  | writeLoop l r d hww hd =>
    have := hlen hsync
    rw [hww] at this
    obtain ⟨hl, hr⟩ := list_single_of_append_cons this
    subst hl; subst hr
    refine ⟨fun hf => by simp [hsync] at hf, fun _ => by simp⟩

lemma syncInv_step {s t : SyncState} (h : SyncInv s) (hs : SyncStep s t) :
    SyncInv t := by
  cases hs with
  | request d s => exact syncInv_request d s h
  | worker hw => exact syncInv_worker h hw

lemma syncInv_reachable {s : SyncState} (h : SyncReachable s) : SyncInv s := by
  induction h with
  | init => exact syncInv_init
  | step _ hstep ih => exact syncInv_step ih hstep

/-- C1: quiescence invariant of the Activation Synchronizer — in every
state reachable from the initial synchronizer state (current = Active,
desired = Active, syncing = false) by request steps of
`sync_hotkeys_for_foreground` and atomic iterations of the spawned
convergence worker, `syncing = false` implies `current = desired`. -/
theorem sync_quiescence_invariant (s : SyncState) (hs : SyncReachable s)
    (h : s.syncing = false) : s.current = s.desired :=
  ((syncInv_reachable hs).1 h).1

/-- Witness for `sync_quiescence_invariant`: a concrete reachable
quiescent state (one full request/convergence round from the initial
state) satisfies `current = desired`. -/
theorem sync_quiescence_invariant_witness :
    ({ current := .Inactive, desired := .Inactive, syncing := false,
       workers := [] } : SyncState).current =
    ({ current := .Inactive, desired := .Inactive, syncing := false,
       workers := [] } : SyncState).desired := by
  have h1 : SyncReachable
      ({ current := .Active, desired := .Inactive, syncing := true,
         workers := [.readDesired] } : SyncState) :=
    SyncReachable.step SyncReachable.init
      (SyncStep.request .Inactive initSyncState)
  have h3 : SyncReachable
      ({ current := .Active, desired := .Inactive, syncing := true,
         workers := [.applying .Inactive] } : SyncState) :=
    SyncReachable.step h1 (SyncStep.worker (WorkerStep.read _ [] [] rfl))
  have h4 : SyncReachable
      ({ current := .Inactive, desired := .Inactive, syncing := false,
         workers := [] } : SyncState) :=
    SyncReachable.step h3
      (SyncStep.worker (WorkerStep.writeDone _ [] [] .Inactive rfl rfl))
  exact sync_quiescence_invariant _ h4 rfl

lemma applyRequest_of_syncing (d : HotkeyActivation) (s : SyncState)
    (h : s.syncing = true) : applyRequest d s = { s with desired := d } := by
  simp [applyRequest, h]

lemma foldRequests_of_syncing (ds : List HotkeyActivation) (s : SyncState)
    (h : s.syncing = true) :
    foldRequests ds s = { s with desired := ds.getLastD s.desired } := by
  induction ds generalizing s with
  | nil => simp [foldRequests]
  | cons d rest ih =>
    have : foldRequests (d :: rest) s = foldRequests rest (applyRequest d s) := rfl
    rw [this, applyRequest_of_syncing d s h, ih _ (by simp [h])]
    rw [List.getLastD_cons]

lemma workerStep_desired {s t : SyncState} (h : WorkerStep s t) :
    t.desired = s.desired := by
  cases h <;> rfl

lemma workerSteps_desired {s t : SyncState}
    (h : Relation.ReflTransGen WorkerStep s t) : t.desired = s.desired := by
  induction h with
  | refl => rfl
  | tail _ hstep ih => rw [workerStep_desired hstep, ih]

lemma reachable_foldRequests {s : SyncState} (ds : List HotkeyActivation)
    (h : SyncReachable s) : SyncReachable (foldRequests ds s) := by
  induction ds generalizing s with
  | nil => exact h
  | cons d rest ih =>
    exact ih (SyncReachable.step h (SyncStep.request d s))

lemma reachable_workerSteps {s t : SyncState}
    (h : Relation.ReflTransGen WorkerStep s t) (hs : SyncReachable s) :
    SyncReachable t := by
  induction h with
  | refl => exact hs
  | tail _ hstep ih => exact SyncReachable.step ih (SyncStep.worker hstep)

/-- C2: coalescing — from any reachable state with a convergence worker
mid-convergence (`syncing = true`), a burst of N ≥ 1 requests leaves the
worker population exactly as it was (exactly one worker, so at most one
mutator of the registration table), sets `desired` to the value of the
last request, and any subsequent convergence execution that reaches
quiescence ends with `current` equal to that last requested value
(last-desired-wins). Moreover every reachable state has at most one
worker. -/
theorem sync_coalescing (s : SyncState) (hs : SyncReachable s)
    (hsync : s.syncing = true) (ds : List HotkeyActivation) (hds : ds ≠ []) :
    (foldRequests ds s).desired = ds.getLast hds ∧
    (foldRequests ds s).workers = s.workers ∧
    (foldRequests ds s).workers.length = 1 ∧
    (∀ t, Relation.ReflTransGen WorkerStep (foldRequests ds s) t →
      t.syncing = false → t.current = ds.getLast hds) ∧
    (∀ u, SyncReachable u → u.workers.length ≤ 1) := by
  have hfold := foldRequests_of_syncing ds s hsync
  have hlast : ds.getLastD s.desired = ds.getLast hds := by
    cases ds with
    | nil => exact absurd rfl hds
    | cons d rest => simp [List.getLastD_eq_getLast?, List.getLast?_eq_getLast]
  refine ⟨by rw [hfold]; exact hlast, by rw [hfold], ?_, ?_, ?_⟩
  · rw [hfold]
    exact (syncInv_reachable hs).2 hsync
  · intro t ht htq
    have hreach : SyncReachable t :=
      reachable_workerSteps ht (reachable_foldRequests ds hs)
    have hcd := ((syncInv_reachable hreach).1 htq).1
    have hdes := workerSteps_desired ht
    rw [hcd, hdes, hfold]
    exact hlast
  · intro u hu
    rcases syncInv_reachable hu with ⟨hq, hl⟩
    cases husync : u.syncing
    · rw [(hq husync).2]; simp
    · rw [hl husync]

/-- Witness for `sync_coalescing`: from the concrete reachable
mid-convergence state (one pending worker, desired = Inactive), a burst of
two requests (Active then Inactive) leaves one worker, sets desired to the
last request, and the worker's subsequent convergence ends quiescent with
current = Inactive. -/
theorem sync_coalescing_witness :
    (foldRequests [HotkeyActivation.Active, HotkeyActivation.Inactive]
        { current := .Active, desired := .Inactive, syncing := true,
          workers := [.readDesired] }).desired = HotkeyActivation.Inactive ∧
    (foldRequests [HotkeyActivation.Active, HotkeyActivation.Inactive]
        { current := .Active, desired := .Inactive, syncing := true,
          workers := [.readDesired] }).workers.length = 1 ∧
    ({ current := .Inactive, desired := .Inactive, syncing := false,
       workers := [] } : SyncState).current = HotkeyActivation.Inactive := by
  have hreach : SyncReachable
      ({ current := .Active, desired := .Inactive, syncing := true,
         workers := [.readDesired] } : SyncState) :=
    SyncReachable.step SyncReachable.init
      (SyncStep.request .Inactive initSyncState)
  have hco := sync_coalescing _ hreach rfl
    [HotkeyActivation.Active, HotkeyActivation.Inactive] (by simp)
  have hstep1 : WorkerStep
      (foldRequests [HotkeyActivation.Active, HotkeyActivation.Inactive]
        { current := .Active, desired := .Inactive, syncing := true,
          workers := [.readDesired] })
      { current := .Active, desired := .Inactive, syncing := true,
        workers := [.applying .Inactive] } :=
    WorkerStep.read _ [] [] rfl
  have hstep2 : WorkerStep
      ({ current := .Active, desired := .Inactive, syncing := true,
         workers := [.applying .Inactive] } : SyncState)
      { current := .Inactive, desired := .Inactive, syncing := false,
        workers := [] } :=
    WorkerStep.writeDone _ [] [] .Inactive rfl rfl
  exact ⟨hco.1, hco.2.2.1,
    hco.2.2.2.1 _ (Relation.ReflTransGen.tail
      (Relation.ReflTransGen.tail Relation.ReflTransGen.refl hstep1) hstep2) rfl⟩

/-- C5: Key-Activation Tracker semantics — the first `try_activate_key` for
an id not in the set returns true and inserts it; any call while the id is
in the set returns false and leaves the set unchanged (in particular any
second call right after a successful activation); after `deactivate_key`
the id can be activated again; and `deactivate_key` is idempotent, with
removal of an absent id leaving the set unchanged. -/
theorem key_tracker_spec (id : String) (s : Finset String) :
    (id ∉ s → try_activate_key id s = (true, insert id s)) ∧
    (id ∈ s → try_activate_key id s = (false, s)) ∧
    (try_activate_key id (try_activate_key id s).2).1 = false ∧
    (try_activate_key id (deactivate_key id s)).1 = true ∧
    (id ∉ s → deactivate_key id s = s) ∧
    deactivate_key id (deactivate_key id s) = deactivate_key id s := by
  refine ⟨fun h => by simp [try_activate_key, h],
    fun h => by simp [try_activate_key, h], ?_, ?_,
    fun h => Finset.erase_eq_of_not_mem h, ?_⟩
  · by_cases h : id ∈ s <;> simp [try_activate_key, h]
  · simp [try_activate_key, deactivate_key]
  · simp [deactivate_key, Finset.erase_idem]

/-- Witness for `key_tracker_spec` at id `"x"` and concrete sets. -/
theorem key_tracker_spec_witness :
    try_activate_key "x" (∅ : Finset String) = (true, insert "x" ∅) ∧
    (try_activate_key "x" (try_activate_key "x" (∅ : Finset String)).2).1 = false ∧
    (try_activate_key "x"
      (deactivate_key "x" (insert "x" (∅ : Finset String)))).1 = true ∧
    deactivate_key "x" (∅ : Finset String) = ∅ := by
  have h := key_tracker_spec "x" ∅
  have h2 := key_tracker_spec "x" (insert "x" ∅)
  exact ⟨h.1 (by simp), h.2.2.1, h2.2.2.2.1, h.2.2.2.2.1 (by simp)⟩

/-- C6: parser normalization equivalences — `"Ctrl+Shift+,"` and
`"Control+Shift+Comma"` normalize to the same canonical string (so they
parse identically under any OS grammar), and likewise `"Win+1"` and
`"Super+1"`. -/
theorem parser_normalization_equiv (g : String → Bool) :
    parse_shortcut g "Ctrl+Shift+," = parse_shortcut g "Control+Shift+Comma" ∧
    parse_shortcut g "Win+1" = parse_shortcut g "Super+1" ∧
    normalizeShortcut "Ctrl+Shift+," = "Control+Shift+Comma" ∧
    normalizeShortcut "Win+1" = "Super+1" := by
  have h1 : normalizeShortcut "Ctrl+Shift+," =
      normalizeShortcut "Control+Shift+Comma" := by decide
  have h2 : normalizeShortcut "Win+1" = normalizeShortcut "Super+1" := by decide
  exact ⟨by simp [parse_shortcut, h1], by simp [parse_shortcut, h2],
    by decide, by decide⟩

lemma unregister_shortcut_of_app (st : HotkeyState) (id : String)
    (h : st.app = true) :
    unregister_shortcut st id =
      { st with registered := st.registered.eraseP (fun p => p.1 == id),
                status := statusRemove id st.status } := by
  simp [unregister_shortcut, h]

lemma unregister_all_aux (l : List (String × String)) (st : HotkeyState)
    (happ : st.app = true) (hreg : st.registered = l) :
    l.foldl (fun acc p => unregister_shortcut acc p.1) st =
      { st with registered := [],
                status := st.status.filter
                  (fun q => !((l.map Prod.fst).contains q.1)) } := by
  induction l generalizing st with
  | nil =>
    simp only [List.foldl_nil, List.map_nil]
    have : (st.status.filter fun q => !(([] : List String).contains q.1)) =
        st.status := by
      simp
    rw [this, ← hreg]
  | cons a rest ih =>
    have hstep : unregister_shortcut st a.1 =
        { st with registered := rest,
                  status := statusRemove a.1 st.status } := by
      rw [unregister_shortcut_of_app st a.1 happ, hreg,
        List.eraseP_cons_of_pos (by simp)]
    rw [List.foldl_cons, hstep,
      ih { st with registered := rest, status := statusRemove a.1 st.status }
        happ rfl]
    simp only [statusRemove, List.filter_filter, List.map_cons]
    congr 1
    exact List.filter_congr
      (fun q _ => by simp [List.contains_cons, Bool.not_or, Bool.and_comm])

/-- C3 counterexample: from a prior state whose status table holds only the
synthetic aggregate entry `"number_shortcuts"` (no corresponding
registration-table entry), `unregister_all` does not leave the status table
empty, contradicting the claim. -/
theorem unregister_all_orphan_counterexample :
    ¬ ((unregister_all
        { app := true, registered := [],
          status := [("number_shortcuts",
            { id := "number_shortcuts", shortcut := "Control+1",
              success := false, error := some "REGISTRATION_FAILED" })],
          hotkeysEnabled := true, foregroundDisabled := false }).registered = [] ∧
      (unregister_all
        { app := true, registered := [],
          status := [("number_shortcuts",
            { id := "number_shortcuts", shortcut := "Control+1",
              success := false, error := some "REGISTRATION_FAILED" })],
          hotkeysEnabled := true, foregroundDisabled := false }).status = []) := by
  decide

/-- C3 amended: with the manager initialized, `unregister_all` empties the
registration table and clears exactly the statuses of the previously
registered ids; a status entry whose id has no registration-table entry
(e.g. a failed-registration status or the `"number_shortcuts"` aggregate)
survives. -/
theorem unregister_all_spec (st : HotkeyState) (happ : st.app = true) :
    (unregister_all st).registered = [] ∧
    (unregister_all st).status = st.status.filter
      (fun q => !((st.registered.map Prod.fst).contains q.1)) := by
  unfold unregister_all
  rw [unregister_all_aux st.registered st happ rfl]
  exact ⟨rfl, rfl⟩

/-- Witness for `unregister_all_spec`: a registered `"toggle"` entry plus
an orphan `"number_shortcuts"` status; after `unregister_all` the table is
empty and exactly the orphan status survives. -/
theorem unregister_all_spec_witness :
    (unregister_all
      { app := true, registered := [("toggle", "Control+A")],
        status := [("toggle",
          { id := "toggle", shortcut := "Control+A",
            success := true, error := none }),
          ("number_shortcuts",
          { id := "number_shortcuts", shortcut := "Control+1",
            success := false, error := some "REGISTRATION_FAILED" })],
        hotkeysEnabled := true, foregroundDisabled := false }).registered = [] ∧
    (unregister_all
      { app := true, registered := [("toggle", "Control+A")],
        status := [("toggle",
          { id := "toggle", shortcut := "Control+A",
            success := true, error := none }),
          ("number_shortcuts",
          { id := "number_shortcuts", shortcut := "Control+1",
            success := false, error := some "REGISTRATION_FAILED" })],
        hotkeysEnabled := true, foregroundDisabled := false }).status =
      [("number_shortcuts",
        { id := "number_shortcuts", shortcut := "Control+1",
          success := false, error := some "REGISTRATION_FAILED" })] := by
  have h := unregister_all_spec
    { app := true, registered := [("toggle", "Control+A")],
      status := [("toggle",
        { id := "toggle", shortcut := "Control+A",
          success := true, error := none }),
        ("number_shortcuts",
        { id := "number_shortcuts", shortcut := "Control+1",
          success := false, error := some "REGISTRATION_FAILED" })],
      hotkeysEnabled := true, foregroundDisabled := false } rfl
  refine ⟨h.1, ?_⟩
  rw [h.2]
  decide

lemma keyFilter_eraseP (id : String) (l : List (String × String))
    (h : (l.filter (fun p => p.1 == id)).length ≤ 1) :
    (l.eraseP (fun p => p.1 == id)).filter (fun p => p.1 == id) = [] := by
  induction l with
  | nil => rfl
  | cons a t ih =>
    cases ha : (a.1 == id) with
    | true =>
      have h1 : (a :: t).eraseP (fun p => p.1 == id) = t := by
        simp [List.eraseP_cons, ha]
      have h2 : (a :: t).filter (fun p => p.1 == id) =
          a :: t.filter (fun p => p.1 == id) := by
        simp [List.filter_cons, ha]
      rw [h2, List.length_cons] at h
      rw [h1]
      exact List.length_eq_zero.mp (by omega)
    | false =>
      have h1 : (a :: t).eraseP (fun p => p.1 == id) =
          a :: t.eraseP (fun p => p.1 == id) := by
        simp [List.eraseP_cons, ha]
      have h2 : ∀ l2 : List (String × String),
          (a :: l2).filter (fun p => p.1 == id) =
          l2.filter (fun p => p.1 == id) := fun l2 => by
        simp [List.filter_cons, ha]
      rw [h2] at h
      rw [h1, h2]
      exact ih h

lemma register_shortcut_parseFail (g : String → Bool)
    (os : String → Option String) (id d : String) (st : HotkeyState)
    (happ : st.app = true) (hp : g (normalizeShortcut d) = false) :
    register_shortcut g os id d st =
      (update_shortcut_status (unregister_shortcut st id) id d false
        (some "REGISTRATION_FAILED"),
       .error "REGISTRATION_FAILED") := by
  simp [register_shortcut, parse_shortcut, happ, hp]

lemma register_shortcut_osOk (g : String → Bool)
    (os : String → Option String) (id d : String) (st : HotkeyState)
    (happ : st.app = true) (hp : g (normalizeShortcut d) = true)
    (hos : os (normalizeShortcut d) = none) :
    register_shortcut g os id d st =
      (update_shortcut_status
        { unregister_shortcut st id with registered :=
            (unregister_shortcut st id).registered ++ [(id, d)] }
        id d true none,
       .ok ()) := by
  simp [register_shortcut, parse_shortcut, happ, hp, hos]

lemma register_shortcut_osFail (g : String → Bool)
    (os : String → Option String) (id d e : String) (st : HotkeyState)
    (happ : st.app = true) (hp : g (normalizeShortcut d) = true)
    (hos : os (normalizeShortcut d) = some e) :
    register_shortcut g os id d st =
      (update_shortcut_status (unregister_shortcut st id) id d false
        (some (if containsSub e "already registered" then "CONFLICT"
               else "REGISTRATION_FAILED")),
       .error ("注册快捷键失败: " ++ e)) := by
  simp [register_shortcut, parse_shortcut, happ, hp, hos]

lemma register_shortcut_app (g : String → Bool) (os : String → Option String)
    (id d : String) (st : HotkeyState) :
    ((register_shortcut g os id d st).1).app = st.app := by
  cases happ : st.app
  · simp [register_shortcut, happ]
  · cases hp : g (normalizeShortcut d)
    · rw [register_shortcut_parseFail g os id d st happ hp]
      simp [update_shortcut_status, unregister_shortcut, happ]
    · cases hos : os (normalizeShortcut d) with
      | none =>
        rw [register_shortcut_osOk g os id d st happ hp hos]
        simp [update_shortcut_status, unregister_shortcut, happ]
      | some e =>
        rw [register_shortcut_osFail g os id d e st happ hp hos]
        simp [update_shortcut_status, unregister_shortcut, happ]

lemma register_keeps_count (g : String → Bool) (os : String → Option String)
    (id d : String) (st : HotkeyState) (happ : st.app = true)
    (h : (st.registered.filter (fun p => p.1 == id)).length ≤ 1) :
    (((register_shortcut g os id d st).1).registered.filter
      (fun p => p.1 == id)).length ≤ 1 := by
  have herase := keyFilter_eraseP id st.registered h
  have hunreg := unregister_shortcut_of_app st id happ
  cases hp : g (normalizeShortcut d)
  · rw [register_shortcut_parseFail g os id d st happ hp]
    simp [update_shortcut_status, hunreg, herase]
  · cases hos : os (normalizeShortcut d) with
    | none =>
      rw [register_shortcut_osOk g os id d st happ hp hos]
      simp [update_shortcut_status, hunreg, List.filter_append, herase]
    | some e =>
      rw [register_shortcut_osFail g os id d e st happ hp hos]
      simp [update_shortcut_status, hunreg, herase]

lemma register_success_registered (g : String → Bool)
    (os : String → Option String) (id d : String) (st : HotkeyState)
    (happ : st.app = true)
    (hok : (register_shortcut g os id d st).2 = .ok ()) :
    ((register_shortcut g os id d st).1).registered =
      st.registered.eraseP (fun p => p.1 == id) ++ [(id, d)] := by
  cases hp : g (normalizeShortcut d)
  · rw [register_shortcut_parseFail g os id d st happ hp] at hok
    simp at hok
  · cases hos : os (normalizeShortcut d) with
    | none =>
      rw [register_shortcut_osOk g os id d st happ hp hos]
      simp [update_shortcut_status, unregister_shortcut_of_app st id happ]
    | some e =>
      rw [register_shortcut_osFail g os id d e st happ hp hos] at hok
      simp at hok

/-- C4: for every state whose registration table holds at most one entry
for `id` (the table's uniqueness invariant), `register(id, d1)` followed by
`register(id, d2)` with the second registration succeeding leaves exactly
one registration-table entry for `id`, bound to `d2` — re-registration
never leaves a stale duplicate. -/
theorem register_reregister_unique (g1 g2 : String → Bool)
    (os1 os2 : String → Option String) (st : HotkeyState) (id d1 d2 : String)
    (happ : st.app = true)
    (huniq : (st.registered.filter (fun p => p.1 == id)).length ≤ 1)
    (hok : (register_shortcut g2 os2 id d2
      (register_shortcut g1 os1 id d1 st).1).2 = .ok ()) :
    ((register_shortcut g2 os2 id d2
      (register_shortcut g1 os1 id d1 st).1).1).registered.filter
        (fun p => p.1 == id) = [(id, d2)] := by
  have happ1 : ((register_shortcut g1 os1 id d1 st).1).app = true := by
    rw [register_shortcut_app]; exact happ
  have hcount1 := register_keeps_count g1 os1 id d1 st happ huniq
  rw [register_success_registered g2 os2 id d2
    (register_shortcut g1 os1 id d1 st).1 happ1 hok]
  rw [List.filter_append, keyFilter_eraseP id _ hcount1]
  simp

/-- Witness for `register_reregister_unique`: from the freshly initialized
empty state, registering `"toggle"` as `"Control+A"` and then as
`"Control+B"` (grammar and OS accepting) leaves exactly the entry
`("toggle", "Control+B")`. -/
theorem register_reregister_unique_witness :
    ((register_shortcut (fun _ => true) (fun _ => none) "toggle" "Control+B"
      (register_shortcut (fun _ => true) (fun _ => none) "toggle" "Control+A"
        { app := true, registered := [], status := [],
          hotkeysEnabled := true, foregroundDisabled := false }).1).1).registered.filter
      (fun p => p.1 == "toggle") = [("toggle", "Control+B")] :=
  register_reregister_unique (fun _ => true) (fun _ => true)
    (fun _ => none) (fun _ => none)
    { app := true, registered := [], status := [],
      hotkeysEnabled := true, foregroundDisabled := false }
    "toggle" "Control+A" "Control+B" rfl (by decide) (by rfl)

lemma lookupStatus_insert (id : String) (v : ShortcutStatus)
    (m : List (String × ShortcutStatus)) :
    lookupStatus id (statusInsert id v m) = some v := by
  simp [lookupStatus, statusInsert, List.find?_cons]

/-- C7 counterexample: the status code recorded for a parse failure and
the one recorded for a generic (non-conflict) OS registration failure are
the same string `"REGISTRATION_FAILED"` — the code does not use an OS-error
code distinct from the parse-failure code, contradicting the claim. -/
theorem register_error_code_counterexample :
    (lookupStatus "toggle"
      ((register_shortcut (fun _ => false) (fun _ => none)
        "toggle" "Control+A" emptyInitState).1).status).map
          ShortcutStatus.error = some (some "REGISTRATION_FAILED") ∧
    (lookupStatus "toggle"
      ((register_shortcut (fun _ => true) (fun _ => some "boom")
        "toggle" "Control+A" emptyInitState).1).status).map
          ShortcutStatus.error = some (some "REGISTRATION_FAILED") := by
  decide

/-- C7 amended: on parse failure `register_shortcut` records a failure
status and returns the code `"REGISTRATION_FAILED"` without consulting the
OS oracle and without adding a registration-table entry; on OS failure the
recorded code is `"CONFLICT"` exactly when the OS message reports the
combination already registered, and otherwise `"REGISTRATION_FAILED"` —
the same code as a parse failure, not a distinct one — while the returned
error is the formatted OS message. -/
theorem register_error_classification (g : String → Bool)
    (os os2 : String → Option String) (id d : String) (st : HotkeyState)
    (happ : st.app = true) :
    (g (normalizeShortcut d) = false →
      register_shortcut g os id d st = register_shortcut g os2 id d st ∧
      (register_shortcut g os id d st).2 = .error "REGISTRATION_FAILED" ∧
      lookupStatus id ((register_shortcut g os id d st).1).status =
        some { id := id, shortcut := d, success := false,
               error := some "REGISTRATION_FAILED" } ∧
      ((register_shortcut g os id d st).1).registered =
        (unregister_shortcut st id).registered) ∧
    (∀ e, g (normalizeShortcut d) = true → os (normalizeShortcut d) = some e →
      lookupStatus id ((register_shortcut g os id d st).1).status =
        some { id := id, shortcut := d, success := false,
               error := some (if containsSub e "already registered"
                 then "CONFLICT" else "REGISTRATION_FAILED") } ∧
      (register_shortcut g os id d st).2 = .error ("注册快捷键失败: " ++ e) ∧
      ((register_shortcut g os id d st).1).registered =
        (unregister_shortcut st id).registered) := by
  constructor
  · intro hp
    rw [register_shortcut_parseFail g os id d st happ hp,
      register_shortcut_parseFail g os2 id d st happ hp]
    refine ⟨rfl, rfl, ?_, rfl⟩
    simp [update_shortcut_status, lookupStatus_insert]
  · intro e hp hos
    rw [register_shortcut_osFail g os id d e st happ hp hos]
    refine ⟨?_, rfl, rfl⟩
    simp [update_shortcut_status, lookupStatus_insert]

/-- Witness for `register_error_classification`: concrete runs showing the
parse-failure code, the conflict classification on an "already registered"
OS message, and the generic OS-failure code. -/
theorem register_error_classification_witness :
    lookupStatus "toggle" ((register_shortcut (fun _ => false) (fun _ => none)
      "toggle" "Control+A" emptyInitState).1).status =
      some { id := "toggle", shortcut := "Control+A", success := false,
             error := some "REGISTRATION_FAILED" } ∧
    lookupStatus "toggle" ((register_shortcut (fun _ => true)
      (fun _ => some "hotkey already registered")
      "toggle" "Control+A" emptyInitState).1).status =
      some { id := "toggle", shortcut := "Control+A", success := false,
             error := some "CONFLICT" } ∧
    lookupStatus "toggle" ((register_shortcut (fun _ => true)
      (fun _ => some "boom")
      "toggle" "Control+A" emptyInitState).1).status =
      some { id := "toggle", shortcut := "Control+A", success := false,
             error := some "REGISTRATION_FAILED" } := by
  have h1 := (register_error_classification (fun _ => false) (fun _ => none)
    (fun _ => none) "toggle" "Control+A" emptyInitState rfl).1 rfl
  have h2 := (register_error_classification (fun _ => true)
    (fun _ => some "hotkey already registered") (fun _ => none)
    "toggle" "Control+A" emptyInitState rfl).2
    "hotkey already registered" rfl rfl
  have h3 := (register_error_classification (fun _ => true)
    (fun _ => some "boom") (fun _ => none)
    "toggle" "Control+A" emptyInitState rfl).2 "boom" rfl rfl
  exact ⟨h1.2.2.1, h2.1.trans (by decide), h3.1.trans (by decide)⟩

lemma numberLoopStep_eq (g : String → Bool) (os : String → Option String)
    (modifier : String) (acc : HotkeyState × List String) (n : Nat) :
    numberLoopStep g os modifier acc n =
      ({ acc.1 with registered :=
           acc.1.registered ++ (numberOkEntry g os modifier n).toList },
       acc.2 ++ (numberFailDesc g os modifier n).toList) := by
  unfold numberLoopStep numberOkEntry numberFailDesc
  cases hp : parse_shortcut g (number_descriptor modifier n) with
  | none => simp [hp]
  | some canon => cases hos : os canon <;> simp [hp, hos]

lemma numberLoop_spec (g : String → Bool) (os : String → Option String)
    (modifier : String) (nums : List Nat) (st : HotkeyState)
    (fs : List String) :
    nums.foldl (numberLoopStep g os modifier) (st, fs) =
      ({ st with registered :=
           st.registered ++ nums.filterMap (numberOkEntry g os modifier) },
       fs ++ nums.filterMap (numberFailDesc g os modifier)) := by
  induction nums generalizing st fs with
  | nil => simp
  | cons n rest ih =>
    rw [List.foldl_cons, numberLoopStep_eq, ih]
    cases hok : numberOkEntry g os modifier n <;>
      cases hfail : numberFailDesc g os modifier n <;>
        simp [List.filterMap_cons, hok, hfail]

lemma lookupStatus_remove (id : String) (m : List (String × ShortcutStatus)) :
    lookupStatus id (statusRemove id m) = none := by
  induction m with
  | nil => rfl
  | cons a t ih =>
    cases ha : (a.1 == id) with
    | true =>
      have h1 : statusRemove id (a :: t) = statusRemove id t := by
        simp [statusRemove, List.filter_cons, ha]
      rw [h1]; exact ih
    | false =>
      have h1 : statusRemove id (a :: t) = a :: statusRemove id t := by
        simp [statusRemove, List.filter_cons, ha]
      have h2 : lookupStatus id (a :: statusRemove id t) =
          lookupStatus id (statusRemove id t) := by
        simp [lookupStatus, List.find?_cons, ha]
      rw [h1, h2]; exact ih

/-- C8 counterexample: with an OS grammar that rejects the canonical form
of `"Ctrl+1"` (all other descriptors parsing and the OS accepting every
registration), `register_number_shortcuts "Ctrl"` never registers
`number_1` — its registration does not succeed — and yet no aggregate
`"number_shortcuts"` status entry is recorded at all: a descriptor that
fails to parse is silently skipped, not collected, contradicting the claim
that every non-succeeding descriptor is collected. -/
theorem register_number_batch_counterexample :
    ((register_number_shortcuts (fun s => !(s == "Control+1"))
      (fun _ => none) "Ctrl" emptyInitState).1).registered.all
        (fun p => !(p.1 == "number_1")) = true ∧
    lookupStatus "number_shortcuts"
      ((register_number_shortcuts (fun s => !(s == "Control+1"))
        (fun _ => none) "Ctrl" emptyInitState).1).status = none := by
  decide

/-- C8 amended: `register_number_shortcuts` attempts each of the nine
numbered registrations independently (a failure on one never aborts the
rest) and returns Ok; every descriptor that parses and is accepted by the
OS yields its table entry, in order; the descriptors that parse but are
rejected by the OS — and only those; descriptors that fail to parse are
silently skipped — are collected into exactly one synthetic aggregate
status entry with id `"number_shortcuts"`, error `"REGISTRATION_FAILED"`
and shortcut the comma-joined failing descriptors (no aggregate entry when
none fail). -/
theorem register_number_shortcuts_spec (g : String → Bool)
    (os : String → Option String) (modifier : String) (st : HotkeyState)
    (happ : st.app = true) :
    (register_number_shortcuts g os modifier st).2 = .ok () ∧
    ((register_number_shortcuts g os modifier st).1).registered =
      (unregister_number_shortcuts st).registered ++
        [1, 2, 3, 4, 5, 6, 7, 8, 9].filterMap (numberOkEntry g os modifier) ∧
    lookupStatus "number_shortcuts"
      ((register_number_shortcuts g os modifier st).1).status =
      (if ([1, 2, 3, 4, 5, 6, 7, 8, 9].filterMap
            (numberFailDesc g os modifier)).isEmpty
       then none
       else some
         { id := "number_shortcuts",
           shortcut := joinComma ([1, 2, 3, 4, 5, 6, 7, 8, 9].filterMap
             (numberFailDesc g os modifier)),
           success := false, error := some "REGISTRATION_FAILED" }) := by
  unfold register_number_shortcuts
  simp only [happ, if_pos]
  rw [numberLoop_spec]
  simp only [List.nil_append]
  cases hfail : ([1, 2, 3, 4, 5, 6, 7, 8, 9].filterMap
      (numberFailDesc g os modifier)).isEmpty
  · simp only [hfail, Bool.false_eq_true, if_false]
    exact ⟨trivial, trivial, lookupStatus_insert _ _ _⟩
  · simp only [hfail, if_pos]
    exact ⟨trivial, trivial, lookupStatus_remove _ _⟩

/-- Witness for `register_number_shortcuts_spec`: the spec's own example —
the OS rejects exactly one of the nine combinations (`Ctrl+5`); eight
entries are registered and one aggregate failure status lists the rejected
descriptor. -/
theorem register_number_shortcuts_spec_witness :
    ((register_number_shortcuts (fun _ => true)
      (fun s => if s == "Control+5" then some "boom" else none)
      "Ctrl" emptyInitState).1).registered.length = 8 ∧
    lookupStatus "number_shortcuts"
      ((register_number_shortcuts (fun _ => true)
        (fun s => if s == "Control+5" then some "boom" else none)
        "Ctrl" emptyInitState).1).status =
      some { id := "number_shortcuts", shortcut := "Ctrl+5",
             success := false, error := some "REGISTRATION_FAILED" } := by
  have h := register_number_shortcuts_spec (fun _ => true)
    (fun s => if s == "Control+5" then some "boom" else none)
    "Ctrl" emptyInitState rfl
  constructor
  · rw [h.2.1]; decide
  · exact h.2.2.trans (by decide)

lemma unregister_all_uninit (st : HotkeyState) (h : st.app = false) :
    unregister_all st = st := by
  unfold unregister_all
  generalize st.registered = l
  induction l with
  | nil => rfl
  | cons a t ih =>
    rw [List.foldl_cons,
      show unregister_shortcut st a.1 = st from by simp [unregister_shortcut, h]]
    exact ih

/-- C9 counterexample: with the manager not initialized and a registration
entry present, `unregister_shortcut` returns the state unchanged — it has
no error channel and silently does nothing instead of failing with a "not
initialized" error, contradicting the claim that every operation other
than init fails with that error. -/
theorem init_gate_counterexample :
    unregister_shortcut
      { app := false, registered := [("toggle", "Control+A")],
        status := [], hotkeysEnabled := true, foregroundDisabled := false }
      "toggle" =
      { app := false, registered := [("toggle", "Control+A")],
        status := [], hotkeysEnabled := true, foregroundDisabled := false } := by
  decide

/-- C9 amended: before init, the registration operations that acquire the
application handle and propagate the failure (`register_shortcut`,
`register_quickpaste_hotkey`, `register_paste_plain_text_hotkey`,
`register_number_shortcuts`) fail with the "not initialized" error and
leave the state unchanged, while `unregister_shortcut` and
`unregister_all` silently return the state unchanged with no error signal
at all. -/
theorem init_gate_spec (g : String → Bool) (os : String → Option String)
    (id d : String) (st : HotkeyState) (h : st.app = false) :
    register_shortcut g os id d st = (st, .error "热键管理器未初始化") ∧
    register_quickpaste_hotkey g os d st = (st, .error "热键管理器未初始化") ∧
    register_paste_plain_text_hotkey g os d st =
      (st, .error "热键管理器未初始化") ∧
    register_number_shortcuts g os d st = (st, .error "热键管理器未初始化") ∧
    unregister_shortcut st id = st ∧
    unregister_all st = st := by
  refine ⟨?_, ?_, ?_, ?_, ?_, unregister_all_uninit st h⟩ <;>
    simp [register_shortcut, register_quickpaste_hotkey,
      register_paste_plain_text_hotkey, register_number_shortcuts,
      unregister_shortcut, h]

/-- Witness for `init_gate_spec` on a concrete uninitialized state. -/
theorem init_gate_spec_witness :
    register_shortcut (fun _ => true) (fun _ => none) "toggle" "Control+B"
      { app := false, registered := [("toggle", "Control+A")],
        status := [], hotkeysEnabled := true, foregroundDisabled := false } =
      ({ app := false, registered := [("toggle", "Control+A")],
         status := [], hotkeysEnabled := true, foregroundDisabled := false },
       .error "热键管理器未初始化") ∧
    unregister_all
      { app := false, registered := [("toggle", "Control+A")],
        status := [], hotkeysEnabled := true, foregroundDisabled := false } =
      { app := false, registered := [("toggle", "Control+A")],
        status := [], hotkeysEnabled := true, foregroundDisabled := false } := by
  have h := init_gate_spec (fun _ => true) (fun _ => none) "toggle" "Control+B"
    { app := false, registered := [("toggle", "Control+A")],
      status := [], hotkeysEnabled := true, foregroundDisabled := false } rfl
  exact ⟨h.1, h.2.2.2.2.2⟩

/-- C10: if the foreground-exclusion flag is set when
`reload_from_settings` runs (manager initialized), then even with the
hotkeys-enabled settings flag true the reload unregisters everything,
clears every status, registers nothing and returns Ok — both the
registration table and the status table end empty. -/
theorem reload_foreground_excluded (g : String → Bool)
    (os : String → Option String) (settings : Settings) (st : HotkeyState)
    (happ : st.app = true) (hfg : st.foregroundDisabled = true)
    (hen : settings.hotkeys_enabled = true) :
    ((reload_from_settings g os settings st).1).registered = [] ∧
    ((reload_from_settings g os settings st).1).status = [] ∧
    (reload_from_settings g os settings st).2 = .ok () := by
  have hreg := (unregister_all_spec st happ).1
  have hfg2 : (unregister_all st).foregroundDisabled = true := by
    unfold unregister_all
    rw [unregister_all_aux st.registered st happ rfl]
    exact hfg
  unfold reload_from_settings
  simp only [hen, if_pos, hfg2, hreg]
  exact ⟨trivial, trivial, trivial⟩

/-- Witness for `reload_foreground_excluded`: a concrete initialized state
with a registered entry, a recorded status and the foreground-exclusion
flag set, reloaded under settings that enable hotkeys and configure
several shortcuts — nothing is registered and both tables end empty. -/
theorem reload_foreground_excluded_witness :
    ((reload_from_settings (fun _ => true) (fun _ => none)
      { hotkeys_enabled := true, toggle_shortcut := "Control+A",
        quickpaste_enabled := true, quickpaste_shortcut := "Control+Q",
        screenshot_enabled := true, screenshot_shortcut := "Control+S",
        screenshot_quick_save_shortcut := "", screenshot_quick_pin_shortcut := "",
        screenshot_quick_ocr_shortcut := "",
        toggle_clipboard_monitor_shortcut := "",
        toggle_paste_with_format_shortcut := "",
        paste_plain_text_shortcut := "Control+P",
        number_shortcuts := true, number_shortcuts_modifier := "Ctrl" }
      { app := true, registered := [("toggle", "Control+A")],
        status := [("toggle",
          { id := "toggle", shortcut := "Control+A",
            success := true, error := none })],
        hotkeysEnabled := true, foregroundDisabled := true }).1).registered = [] ∧
    ((reload_from_settings (fun _ => true) (fun _ => none)
      { hotkeys_enabled := true, toggle_shortcut := "Control+A",
        quickpaste_enabled := true, quickpaste_shortcut := "Control+Q",
        screenshot_enabled := true, screenshot_shortcut := "Control+S",
        screenshot_quick_save_shortcut := "", screenshot_quick_pin_shortcut := "",
        screenshot_quick_ocr_shortcut := "",
        toggle_clipboard_monitor_shortcut := "",
        toggle_paste_with_format_shortcut := "",
        paste_plain_text_shortcut := "Control+P",
        number_shortcuts := true, number_shortcuts_modifier := "Ctrl" }
      { app := true, registered := [("toggle", "Control+A")],
        status := [("toggle",
          { id := "toggle", shortcut := "Control+A",
            success := true, error := none })],
        hotkeysEnabled := true, foregroundDisabled := true }).1).status = [] := by
  have h := reload_foreground_excluded (fun _ => true) (fun _ => none)
    { hotkeys_enabled := true, toggle_shortcut := "Control+A",
      quickpaste_enabled := true, quickpaste_shortcut := "Control+Q",
      screenshot_enabled := true, screenshot_shortcut := "Control+S",
      screenshot_quick_save_shortcut := "", screenshot_quick_pin_shortcut := "",
      screenshot_quick_ocr_shortcut := "",
      toggle_clipboard_monitor_shortcut := "",
      toggle_paste_with_format_shortcut := "",
      paste_plain_text_shortcut := "Control+P",
      number_shortcuts := true, number_shortcuts_modifier := "Ctrl" }
    { app := true, registered := [("toggle", "Control+A")],
      status := [("toggle",
        { id := "toggle", shortcut := "Control+A",
          success := true, error := none })],
      hotkeysEnabled := true, foregroundDisabled := true } rfl rfl rfl
  exact ⟨h.1, h.2.1⟩

end Hotkey
